import Mathlib

/-!
# DryftLink per-check evaluation pipeline: shallow embedding and verification

Lean 4 embedding of the core evaluation pipeline of the DryftLink monitoring
backend, covering:

* the Fingerprint & Diff Engine (`apps/api/src/snapshot.ts`:
  `extractFingerprint`, `computeDiff`, and the classification logic used by
  `createSnapshot`),
* the Confirmation State Machine (`apps/worker/src/uptime-state.ts`), and
* the worker's job-processing control flow (`apps/worker/src/processor.ts`,
  the revision that invokes the state machine and snapshot capture).

JavaScript `number` arithmetic appears in exactly one place in the core: the
`sizeChangePercent` division in `computeDiff`.  All inputs are integers
(byte sizes), so the only IEEE-754 behaviour that matters is division by
zero; we model it explicitly with a four-way value type (`JSNum`) whose
non-finite values mirror `Infinity`, `-Infinity` and `NaN` comparison
semantics.  Finite values are exact rationals: for byte sizes below `2^31`
(the Postgres `INTEGER` column holding `htmlSize`), the strict threshold
comparisons `> 50` and `> 10` agree between doubles and exact rationals,
since a nonzero exact gap `|diff*100/prev − 50|` is at least `1/prev`,
far above the relative rounding error of two double operations.
-/

namespace DryftLink

/-- `SiteCheckStatus` enum from the Prisma schema. -/
inductive SiteCheckStatus where
  | SUCCESS
  | ERROR
  | TIMEOUT
  | BLOCKED
deriving DecidableEq, Repr

/-- `UptimeState` enum from the Prisma schema. -/
inductive UptimeState where
  | UP
  | DOWN
deriving DecidableEq, Repr

/-- `ChangeLevel` enum from the Prisma schema. -/
inductive ChangeLevel where
  | NONE
  | MINOR
  | MODERATE
  | MAJOR
deriving DecidableEq, Repr

/-!
## Fingerprint extraction (`extractFingerprint`)

`extractFingerprint` runs four cheerio queries over the parsed document.  We
embed it over the query results: the list of `src` attribute values of the
`script[src]` elements, the `href` values of the stylesheet links, the `src`
values of the `img[src]` elements, and the `(name, property, content)`
attribute triples of the `meta` elements, all in document order.  Attribute
lookups may come back absent (`undefined`), hence the `Option`s.
-/

/-- Attributes of one `<meta>` element as read by `extractFingerprint`. -/
structure MetaElement where
  name : Option String
  property : Option String
  content : Option String
deriving DecidableEq, Repr

/-- The cheerio query results `extractFingerprint` iterates over, in
document order. -/
structure ParsedDoc where
  scriptSrcs : List (Option String)
  styleHrefs : List (Option String)
  imgSrcs : List (Option String)
  metas : List MetaElement
deriving DecidableEq, Repr

/-- JavaScript truthiness filter used by each `.each` loop: the attribute
value is pushed only when present and non-empty (`if (src) scripts.push(src)`;
the empty string is falsy). -/
def truthyValues (attrs : List (Option String)) : List String :=
  attrs.filterMap fun o =>
    match o with
    | some s => if s = "" then none else some s
    | none => none

/-- JavaScript `a || b || ""` over two optional attribute values: the first
present, non-empty string, else `""`. -/
def firstTruthy (a b : Option String) : String :=
  match a with
  | some s => if s = "" then (match b with | some t => t | none => "") else s
  | none => match b with | some t => t | none => ""

/-- JavaScript object assignment `obj[k] = v` on a string-keyed record:
update the value in place if the key exists (keeping its insertion
position), otherwise append the pair. -/
def setKey (m : List (String × String)) (k v : String) : List (String × String) :=
  if m.any (fun p => p.1 = k) then
    m.map fun p => if p.1 = k then (k, v) else p
  else
    m ++ [(k, v)]

/-- The structural fingerprint of a page (`PageFingerprint` in
`snapshot.ts`).  `metaTags` is the JavaScript `Record<string, string>`,
i.e. an association list ordered by key insertion (this order is what
`JSON.stringify` serializes). -/
structure PageFingerprint where
  scripts : List String
  styles : List String
  images : List String
  metaTags : List (String × String)
deriving DecidableEq, Repr

/-- `extractFingerprint` from `apps/api/src/snapshot.ts`: collect the truthy
script/style/image URLs in document order (duplicates kept — there is no
dedup in the source), and build the meta-tag record with
`name = attr("name") || attr("property") || ""`,
`content = attr("content") || ""`, inserting only when both are truthy. -/
def extractFingerprint (doc : ParsedDoc) : PageFingerprint :=
  { scripts := truthyValues doc.scriptSrcs
    styles := truthyValues doc.styleHrefs
    images := truthyValues doc.imgSrcs
    metaTags :=
      List.foldl
        (fun m e =>
          let n := firstTruthy e.name e.property
          let c := match e.content with | some s => s | none => ""
          if n ≠ "" ∧ c ≠ "" then setKey m n c else m)
        [] doc.metas }

/-!
## JavaScript number model for the size-percent computation
-/

/-- The values a JavaScript `number` can take in the `sizeChangePercent`
computation: a finite (exact) value, `Infinity`, `-Infinity`, or `NaN`. -/
inductive JSNum where
  | num (q : ℚ)
  | posInf
  | negInf
  | nan
deriving DecidableEq, Repr

/-- JavaScript division of two (finite) values: division by zero yields
`Infinity`, `-Infinity`, or `NaN` according to the sign of the numerator. -/
def jsDiv (a b : ℚ) : JSNum :=
  if b = 0 then
    if 0 < a then JSNum.posInf else if a < 0 then JSNum.negInf else JSNum.nan
  else
    JSNum.num (a / b)

/-- Multiplication by the positive constant `100`, as applied to the raw
quotient (`* 100` preserves the non-finite values). -/
def jsMul100 : JSNum → JSNum
  | JSNum.num q => JSNum.num (q * 100)
  | JSNum.posInf => JSNum.posInf
  | JSNum.negInf => JSNum.negInf
  | JSNum.nan => JSNum.nan

/-- `Math.abs` on the modeled values. -/
def jsAbs : JSNum → JSNum
  | JSNum.num q => JSNum.num |q|
  | JSNum.posInf => JSNum.posInf
  | JSNum.negInf => JSNum.posInf
  | JSNum.nan => JSNum.nan

/-- JavaScript `>` against a finite constant: `Infinity > c` is true,
`-Infinity > c` is false, and any comparison with `NaN` is false. -/
def jsGtConst : JSNum → ℚ → Bool
  | JSNum.num q, c => decide (c < q)
  | JSNum.posInf, _ => true
  | JSNum.negInf, _ => false
  | JSNum.nan, _ => false

/-- Whether the value is finite (an actual number). -/
def jsFinite : JSNum → Bool
  | JSNum.num _ => true
  | _ => false

/-- The `sizeChangePercent` local of `computeDiff`:
`(htmlSizeDiff / previous.htmlSize) * 100`, with no guard against a zero
previous size. -/
def sizeChangePercent (htmlSizeDiff prevSize : ℤ) : JSNum :=
  jsMul100 (jsDiv (htmlSizeDiff : ℚ) (prevSize : ℚ))

/-!
## Diff computation (`computeDiff`)
-/

/-- `DiffResult` from `apps/api/src/snapshot.ts`. -/
structure DiffResult where
  scriptsAdded : List String
  scriptsRemoved : List String
  stylesAdded : List String
  stylesRemoved : List String
  imagesAdded : List String
  imagesRemoved : List String
  metaTagsChanged : Bool
  htmlSizeDiff : ℤ
  changeLevel : ChangeLevel
deriving DecidableEq, Repr

/-- The change-level decision chain at the end of `computeDiff`, verbatim:
if none of the six lists is non-empty and the meta tags are unchanged, the
level is `NONE`; otherwise `MAJOR` on `|sizeChangePercent| > 50` or more
than 3 scripts added, else `MODERATE` on `|sizeChangePercent| > 10` or any
script added, else `MINOR`. -/
def classifyChange (scriptsAdded scriptsRemoved stylesAdded stylesRemoved
    imagesAdded imagesRemoved : List String) (metaTagsChanged : Bool)
    (pct : JSNum) : ChangeLevel :=
  if !scriptsAdded.isEmpty || !scriptsRemoved.isEmpty || !stylesAdded.isEmpty ||
      !stylesRemoved.isEmpty || !imagesAdded.isEmpty || !imagesRemoved.isEmpty ||
      metaTagsChanged then
    if jsGtConst (jsAbs pct) 50 || decide (3 < scriptsAdded.length) then
      ChangeLevel.MAJOR
    else if jsGtConst (jsAbs pct) 10 || decide (0 < scriptsAdded.length) then
      ChangeLevel.MODERATE
    else
      ChangeLevel.MINOR
  else
    ChangeLevel.NONE

/-- `computeDiff` from `apps/api/src/snapshot.ts`.  With no previous
snapshot everything is empty and the level is `NONE`.  Otherwise the
added/removed lists are JavaScript `filter`/`includes` set math (order and
multiplicity of the current/previous lists preserved), `metaTagsChanged`
compares the two meta-tag records by `JSON.stringify`, which on
string-keyed records is equality of the insertion-ordered association
lists, and the level is classified from the six lists, the meta flag, and
the size-change percentage. -/
def computeDiff (current : PageFingerprint) (currentHtmlSize : ℤ)
    (previous : Option (PageFingerprint × ℤ)) : DiffResult :=
  match previous with
  | none =>
    { scriptsAdded := []
      scriptsRemoved := []
      stylesAdded := []
      stylesRemoved := []
      imagesAdded := []
      imagesRemoved := []
      metaTagsChanged := false
      htmlSizeDiff := 0
      changeLevel := ChangeLevel.NONE }
  | some (prev, prevSize) =>
    let scriptsAdded := current.scripts.filter fun s => decide (s ∉ prev.scripts)
    let scriptsRemoved := prev.scripts.filter fun s => decide (s ∉ current.scripts)
    let stylesAdded := current.styles.filter fun s => decide (s ∉ prev.styles)
    let stylesRemoved := prev.styles.filter fun s => decide (s ∉ current.styles)
    let imagesAdded := current.images.filter fun s => decide (s ∉ prev.images)
    let imagesRemoved := prev.images.filter fun s => decide (s ∉ current.images)
    let metaTagsChanged := decide (current.metaTags ≠ prev.metaTags)
    let htmlSizeDiff := currentHtmlSize - prevSize
    let pct := sizeChangePercent htmlSizeDiff prevSize
    { scriptsAdded := scriptsAdded
      scriptsRemoved := scriptsRemoved
      stylesAdded := stylesAdded
      stylesRemoved := stylesRemoved
      imagesAdded := imagesAdded
      imagesRemoved := imagesRemoved
      metaTagsChanged := metaTagsChanged
      htmlSizeDiff := htmlSizeDiff
      changeLevel :=
        classifyChange scriptsAdded scriptsRemoved stylesAdded stylesRemoved
          imagesAdded imagesRemoved metaTagsChanged pct }

/-!
## Confirmation State Machine (`updateUptimeState`)

The source snapshot's `apps/worker/src/uptime-state.ts` is the revision
that predates the confirmation feature: it transitions on every single
state flip and has no counters.  The repository's later confirmation-based
revision of `updateUptimeState` is not included in the snapshot — only its
schema migration (adding `consecutiveFailures`, `consecutiveSuccesses` and
`Site.confirmationsRequired`), its worker caller, the README feature list
("Confirmation system (anti-flapping)") and the changelog entry describing
the optimistic initialization are.  We therefore model that function from
the specification.
-/

/-- The `CheckResult` fields from which the state machine decides the
candidate state: `SUCCESS` maps to `UP`, everything else (`ERROR`,
`TIMEOUT`, `BLOCKED`) to `DOWN` (`determineState` in
`apps/worker/src/uptime-state.ts`). -/
def determineState (status : SiteCheckStatus) : UptimeState :=
  if status = SiteCheckStatus.SUCCESS then UptimeState.UP else UptimeState.DOWN

/-- The per-site `SiteUptimeState` row, restricted to the fields the
confirmation decision reads and writes. -/
structure SiteUptimeState where
  state : UptimeState
  consecutiveFailures : ℕ
  consecutiveSuccesses : ℕ
deriving DecidableEq, Repr

/-- An `UptimeEvent` row: the audit record of one confirmed transition. -/
structure UptimeEvent where
  fromState : UptimeState
  toState : UptimeState
  reasonStatus : SiteCheckStatus
deriving DecidableEq, Repr

/-- Modelled from the spec: the confirmation-threshold revision of
`updateUptimeState` (`apps/worker/src/uptime-state.ts`), whose code is
missing from the source snapshot (only its schema migration, caller, and
changelog are present).  Following the specified algorithm: with no
existing row, create one with `state = UP` (optimistic default), the
matching counter at 1, and no event; otherwise on a candidate-DOWN probe
increment `consecutiveFailures` and reset `consecutiveSuccesses`,
transitioning `UP` to `DOWN` with one event exactly when the failure count
reaches `required` while the state is `UP` (both counters reset to 0 on a
confirmed transition), and symmetrically on a candidate-UP probe.  Returns
the written state row and the emitted event, if any. -/
def updateUptimeState (required : ℕ) (current : Option SiteUptimeState)
    (status : SiteCheckStatus) : SiteUptimeState × Option UptimeEvent :=
  match current with
  | none =>
    ({ state := UptimeState.UP
       consecutiveFailures := if determineState status = UptimeState.DOWN then 1 else 0
       consecutiveSuccesses := if determineState status = UptimeState.UP then 1 else 0 },
     none)
  | some cur =>
    if determineState status = UptimeState.DOWN then
      let failures := cur.consecutiveFailures + 1
      if cur.state = UptimeState.UP ∧ required ≤ failures then
        ({ state := UptimeState.DOWN, consecutiveFailures := 0, consecutiveSuccesses := 0 },
         some { fromState := UptimeState.UP, toState := UptimeState.DOWN,
                reasonStatus := status })
      else
        ({ state := cur.state, consecutiveFailures := failures, consecutiveSuccesses := 0 },
         none)
    else
      let successes := cur.consecutiveSuccesses + 1
      if cur.state = UptimeState.DOWN ∧ required ≤ successes then
        ({ state := UptimeState.UP, consecutiveFailures := 0, consecutiveSuccesses := 0 },
         some { fromState := UptimeState.DOWN, toState := UptimeState.UP,
                reasonStatus := status })
      else
        ({ state := cur.state, consecutiveFailures := 0, consecutiveSuccesses := successes },
         none)

/-- Run the state machine over a sequence of probe results for one site,
threading the persisted row and collecting the emitted events in order.
`current = none` starts from a site that has never been probed. -/
def runUptime (required : ℕ) (current : Option SiteUptimeState) :
    List SiteCheckStatus → Option SiteUptimeState × List UptimeEvent
  | [] => (current, [])
  | p :: ps =>
    let step := updateUptimeState required current p
    let rest := runUptime required (some step.1) ps
    (rest.1, step.2.toList ++ rest.2)

/-!
## Evaluation orchestration (`apps/worker/src/processor.ts`)

The final worker revision records the `SiteCheck` row, always runs
`updateUptimeState`, and only for a `SUCCESS` probe re-fetches the page and
calls `createSnapshot` inside a `try` whose `catch` merely logs — snapshot
capture (and with it fingerprint extraction and diff computation, which run
inside `createSnapshot`) can never fail the job.  We model the fallible
snapshot-capture pieces by their outcomes (`Except`), and record which
persistence effects took place.
-/

/-- The slice of the HTML re-fetch response the snapshot branch looks at. -/
structure HtmlResponse where
  ok : Bool
  statusCode : ℤ
  body : String
deriving Repr

/-- Which persistence effects one job execution performed. -/
structure JobEffects where
  checkCreated : Bool
  uptimeUpdated : Bool
  snapshotAttempted : Bool
  snapshotCreated : Bool
deriving DecidableEq, Repr

/-- The body of the snapshot `try` block: fetch the HTML (which may throw),
and if the response is `ok`, run `createSnapshot` (which may throw anywhere
in fingerprinting, diffing, or persistence).  Returns whether a snapshot
was created; propagates any failure to the surrounding handler. -/
def snapshotBlock (fetchHtml : Except String HtmlResponse)
    (createSnap : HtmlResponse → Except String Unit) : Except String Bool :=
  match fetchHtml with
  | Except.error e => Except.error e
  | Except.ok resp =>
    if resp.ok then
      match createSnap resp with
      | Except.ok _ => Except.ok true
      | Except.error e => Except.error e
    else
      Except.ok false

/-- The tail of the worker's job processor after the probe itself: create
the `SiteCheck` record, update the uptime state machine, and — only when
the probe status is `SUCCESS` — run the snapshot block inside
`try { ... } catch { log }`.  The job completes with its effect record
regardless of how the snapshot block fares. -/
def processCheckOutcome (status : SiteCheckStatus)
    (fetchHtml : Except String HtmlResponse)
    (createSnap : HtmlResponse → Except String Unit) : Except String JobEffects :=
  let afterCsm : JobEffects :=
    { checkCreated := true, uptimeUpdated := true
      snapshotAttempted := false, snapshotCreated := false }
  if status = SiteCheckStatus.SUCCESS then
    match snapshotBlock fetchHtml createSnap with
    | Except.ok created =>
      Except.ok { afterCsm with snapshotAttempted := true, snapshotCreated := created }
    | Except.error _ =>
      Except.ok { afterCsm with snapshotAttempted := true, snapshotCreated := false }
  else
    Except.ok afterCsm

/-!
## Concrete inputs used by counterexamples and witnesses
-/

/-- A fingerprint with no structural content. -/
def fpEmpty : PageFingerprint :=
  { scripts := [], styles := [], images := [], metaTags := [] }

/-- A fingerprint with a single script URL. -/
def fpOneScript : PageFingerprint :=
  { scripts := ["app.js"], styles := [], images := [], metaTags := [] }

/-- A parsed document with no extractable content. -/
def emptyDoc : ParsedDoc :=
  { scriptSrcs := [], styleHrefs := [], imgSrcs := [], metas := [] }

/-- A parsed document whose markup references the same script URL twice
(two `<script src="app.js">` elements). -/
def dupScriptDoc : ParsedDoc :=
  { scriptSrcs := [some "app.js", some "app.js"], styleHrefs := [], imgSrcs := [], metas := [] }

/-- A parsed document with meta tags `alpha=1` then `beta=2`, in that order. -/
def metaDocA : ParsedDoc :=
  { scriptSrcs := [], styleHrefs := [], imgSrcs := []
    metas := [{ name := some "alpha", property := none, content := some "1" },
              { name := some "beta", property := none, content := some "2" }] }

/-- The same meta tags as `metaDocA` but in the opposite document order. -/
def metaDocB : ParsedDoc :=
  { scriptSrcs := [], styleHrefs := [], imgSrcs := []
    metas := [{ name := some "beta", property := none, content := some "2" },
              { name := some "alpha", property := none, content := some "1" }] }

/-!
## Fingerprint & Diff Engine: theorems
-/

/-- The change-level classification as worded in the spec (§4.2),
evaluated in order with first match winning: no structural difference in
any of the six signals and no meta change gives `NONE`;
`|sizeChangePercent| > 50` or more than 3 scripts added gives `MAJOR`;
`|sizeChangePercent| > 10` or at least 1 script added gives `MODERATE`;
otherwise `MINOR`. -/
def specChangeLevel (scriptsAdded scriptsRemoved stylesAdded stylesRemoved
    imagesAdded imagesRemoved : List String) (metaTagsChanged : Bool)
    (sizeChangePct : ℚ) : ChangeLevel :=
  if scriptsAdded = [] ∧ scriptsRemoved = [] ∧ stylesAdded = [] ∧ stylesRemoved = [] ∧
      imagesAdded = [] ∧ imagesRemoved = [] ∧ metaTagsChanged = false then
    ChangeLevel.NONE
  else if 50 < |sizeChangePct| ∨ 3 < scriptsAdded.length then
    ChangeLevel.MAJOR
  else if 10 < |sizeChangePct| ∨ 1 ≤ scriptsAdded.length then
    ChangeLevel.MODERATE
  else
    ChangeLevel.MINOR

lemma classifyChange_num (l1 l2 l3 l4 l5 l6 : List String) (mc : Bool) (q : ℚ) :
    classifyChange l1 l2 l3 l4 l5 l6 mc (JSNum.num q) =
      specChangeLevel l1 l2 l3 l4 l5 l6 mc q := by
  cases hb : (!l1.isEmpty || !l2.isEmpty || !l3.isEmpty || !l4.isEmpty || !l5.isEmpty ||
      !l6.isEmpty || mc) with
  | false =>
    have hs : l1 = [] ∧ l2 = [] ∧ l3 = [] ∧ l4 = [] ∧ l5 = [] ∧ l6 = [] ∧ mc = false := by
      simp [List.isEmpty_iff] at hb
      tauto
    obtain ⟨h1, h2, h3, h4, h5, h6, h7⟩ := hs
    subst h1; subst h2; subst h3; subst h4; subst h5; subst h6; subst h7
    rfl
  | true =>
    have hne : ¬(l1 = [] ∧ l2 = [] ∧ l3 = [] ∧ l4 = [] ∧ l5 = [] ∧ l6 = [] ∧ mc = false) := by
      rintro ⟨rfl, rfl, rfl, rfl, rfl, rfl, rfl⟩
      simp at hb
    unfold classifyChange specChangeLevel
    rw [if_neg hne]
    simp only [hb, if_true, jsAbs, jsGtConst, Bool.or_eq_true, decide_eq_true_eq]
    simp [Nat.lt_iff_add_one_le]

/-- C5: against an existing previous snapshot (with a nonzero stored size,
so that the size percentage is an actual number), the change level computed
by `computeDiff` is exactly the spec's ordered first-match-wins
classification over the six structural signals, the meta flag, and
`sizeChangePercent = (current − previous) / previous × 100`. -/
theorem changeLevel_matches_spec_classification (cur prev : PageFingerprint)
    (cs ps : ℤ) (hps : ps ≠ 0) :
    (computeDiff cur cs (some (prev, ps))).changeLevel =
      specChangeLevel
        (computeDiff cur cs (some (prev, ps))).scriptsAdded
        (computeDiff cur cs (some (prev, ps))).scriptsRemoved
        (computeDiff cur cs (some (prev, ps))).stylesAdded
        (computeDiff cur cs (some (prev, ps))).stylesRemoved
        (computeDiff cur cs (some (prev, ps))).imagesAdded
        (computeDiff cur cs (some (prev, ps))).imagesRemoved
        (computeDiff cur cs (some (prev, ps))).metaTagsChanged
        (((cs - ps : ℤ) : ℚ) / ((ps : ℤ) : ℚ) * 100) := by
  have hnum : sizeChangePercent (cs - ps) ps =
      JSNum.num (((cs - ps : ℤ) : ℚ) / ((ps : ℤ) : ℚ) * 100) := by
    have : ((ps : ℤ) : ℚ) ≠ 0 := by exact_mod_cast hps
    simp [sizeChangePercent, jsDiv, jsMul100, this]
  simp only [computeDiff]
  rw [hnum]
  exact classifyChange_num _ _ _ _ _ _ _ _

/-- Witness for C5 at a concrete input: current fingerprint with one added
script, sizes 5 against 1. -/
theorem changeLevel_matches_spec_classification_witness :
    ((1 : ℤ) ≠ 0) ∧
    (computeDiff fpOneScript 5 (some (fpEmpty, 1))).changeLevel =
      specChangeLevel
        (computeDiff fpOneScript 5 (some (fpEmpty, 1))).scriptsAdded
        (computeDiff fpOneScript 5 (some (fpEmpty, 1))).scriptsRemoved
        (computeDiff fpOneScript 5 (some (fpEmpty, 1))).stylesAdded
        (computeDiff fpOneScript 5 (some (fpEmpty, 1))).stylesRemoved
        (computeDiff fpOneScript 5 (some (fpEmpty, 1))).imagesAdded
        (computeDiff fpOneScript 5 (some (fpEmpty, 1))).imagesRemoved
        (computeDiff fpOneScript 5 (some (fpEmpty, 1))).metaTagsChanged
        (((5 - 1 : ℤ) : ℚ) / (((1 : ℤ) : ℤ) : ℚ) * 100) :=
  ⟨by decide, changeLevel_matches_spec_classification fpOneScript fpEmpty 5 1 (by decide)⟩

/-- C6: with no previous snapshot, `computeDiff` returns the empty diff:
level `NONE`, all six added/removed lists empty, the meta flag false, and a
size difference of 0. -/
theorem first_snapshot_diff_none (cur : PageFingerprint) (cs : ℤ) :
    computeDiff cur cs none =
      { scriptsAdded := [], scriptsRemoved := [], stylesAdded := [], stylesRemoved := [],
        imagesAdded := [], imagesRemoved := [], metaTagsChanged := false,
        htmlSizeDiff := 0, changeLevel := ChangeLevel.NONE } :=
  rfl

/-- C7 counterexample: the same two meta-tag mappings (`alpha=1`,
`beta=2`), extracted from documents that list them in opposite orders, are
equal as mappings (the association lists are permutations of one another
with the same values), yet `computeDiff` reports `metaTagsChanged = true`,
because `JSON.stringify` serializes the records in insertion order. -/
theorem metaTags_order_sensitivity_counterexample :
    (extractFingerprint metaDocA).metaTags.Perm (extractFingerprint metaDocB).metaTags ∧
    (computeDiff (extractFingerprint metaDocA) 100
      (some (extractFingerprint metaDocB, 100))).metaTagsChanged = true := by
  decide

/-- C7 amended: `metaTagsChanged` is false exactly when the two
insertion-ordered meta-tag association lists are equal — same keys with the
same values in the same insertion order.  Mappings that are equal as
mappings but were built in different orders are reported as changed. -/
theorem metaTagsChanged_iff_ordered_lists_differ (cur prev : PageFingerprint)
    (cs ps : ℤ) :
    (computeDiff cur cs (some (prev, ps))).metaTagsChanged = false ↔
      cur.metaTags = prev.metaTags := by
  simp [computeDiff]

/-- C8 counterexample: markup referencing `app.js` twice against an empty
previous fingerprint yields `scriptsAdded = ["app.js", "app.js"]` — the
result has duplicate entries and depends on the multiplicity of the URL in
the markup, since neither extraction nor diffing deduplicates. -/
theorem scriptsAdded_duplicates_counterexample :
    (computeDiff (extractFingerprint dupScriptDoc) 10
      (some (extractFingerprint emptyDoc, 10))).scriptsAdded = ["app.js", "app.js"] ∧
    ¬ (computeDiff (extractFingerprint dupScriptDoc) 10
      (some (extractFingerprint emptyDoc, 10))).scriptsAdded.Nodup := by
  decide

/-- C8 amended: the added/removed lists are the set differences at the
level of membership — an entry is in `scriptsAdded` exactly when it occurs
in the current script list and not in the previous one, and symmetrically
for `scriptsRemoved` and the style and image analogues — but they are
computed by list filtering, so entries keep the order and multiplicity of
the source lists, and markup containing a URL several times produces
duplicate entries. -/
theorem diff_lists_membership_set_difference (cur prev : PageFingerprint)
    (cs ps : ℤ) (x : String) :
    (x ∈ (computeDiff cur cs (some (prev, ps))).scriptsAdded ↔
      x ∈ cur.scripts ∧ x ∉ prev.scripts) ∧
    (x ∈ (computeDiff cur cs (some (prev, ps))).scriptsRemoved ↔
      x ∈ prev.scripts ∧ x ∉ cur.scripts) ∧
    (x ∈ (computeDiff cur cs (some (prev, ps))).stylesAdded ↔
      x ∈ cur.styles ∧ x ∉ prev.styles) ∧
    (x ∈ (computeDiff cur cs (some (prev, ps))).stylesRemoved ↔
      x ∈ prev.styles ∧ x ∉ cur.styles) ∧
    (x ∈ (computeDiff cur cs (some (prev, ps))).imagesAdded ↔
      x ∈ cur.images ∧ x ∉ prev.images) ∧
    (x ∈ (computeDiff cur cs (some (prev, ps))).imagesRemoved ↔
      x ∈ prev.images ∧ x ∉ cur.images) := by
  simp [computeDiff, List.mem_filter]

/-- C9: diff symmetry — computing the diff with current and previous
swapped exchanges the added and removed lists, for scripts, styles and
images alike. -/
theorem diff_symmetry (a b : PageFingerprint) (sa sb : ℤ) :
    (computeDiff a sa (some (b, sb))).scriptsAdded =
        (computeDiff b sb (some (a, sa))).scriptsRemoved ∧
    (computeDiff a sa (some (b, sb))).scriptsRemoved =
        (computeDiff b sb (some (a, sa))).scriptsAdded ∧
    (computeDiff a sa (some (b, sb))).stylesAdded =
        (computeDiff b sb (some (a, sa))).stylesRemoved ∧
    (computeDiff a sa (some (b, sb))).stylesRemoved =
        (computeDiff b sb (some (a, sa))).stylesAdded ∧
    (computeDiff a sa (some (b, sb))).imagesAdded =
        (computeDiff b sb (some (a, sa))).imagesRemoved ∧
    (computeDiff a sa (some (b, sb))).imagesRemoved =
        (computeDiff b sb (some (a, sa))).imagesAdded :=
  ⟨rfl, rfl, rfl, rfl, rfl, rfl⟩

/-- C10: the `sizeChangePercent` division has no zero guard — it yields a
finite number exactly when the previous size is nonzero; with a zero
previous size the division-by-zero case is reached and produces a
non-finite value on which the two size thresholds (`> 50` and `> 10`)
evaluate identically, so they no longer discriminate; concretely,
`computeDiff` against a previous snapshot of size 0 with a structural
change and a positive size difference classifies `MAJOR` purely through the
infinite percentage. -/
theorem sizeChangePercent_division_by_zero (d ps : ℤ) :
    jsFinite (sizeChangePercent d ps) = decide (ps ≠ 0) ∧
    jsGtConst (jsAbs (sizeChangePercent d 0)) 50 =
      jsGtConst (jsAbs (sizeChangePercent d 0)) 10 ∧
    (computeDiff fpOneScript 7 (some (fpEmpty, 0))).changeLevel = ChangeLevel.MAJOR := by
  refine ⟨?_, ?_, by decide⟩
  · by_cases hps : ps = 0
    · subst hps
      rcases lt_trichotomy d 0 with h | h | h
      · have : ((d : ℤ) : ℚ) < 0 := by exact_mod_cast h
        simp [sizeChangePercent, jsDiv, jsMul100, jsFinite, this, not_lt.mpr this.le,
          this.ne]
      · subst h
        simp [sizeChangePercent, jsDiv, jsMul100, jsFinite]
      · have : (0 : ℚ) < ((d : ℤ) : ℚ) := by exact_mod_cast h
        simp [sizeChangePercent, jsDiv, jsMul100, jsFinite, this, h.ne]
    · have : ((ps : ℤ) : ℚ) ≠ 0 := by exact_mod_cast hps
      simp [sizeChangePercent, jsDiv, jsMul100, jsFinite, this, hps]
  · rcases lt_trichotomy d 0 with h | h | h
    · have : ((d : ℤ) : ℚ) < 0 := by exact_mod_cast h
      simp [sizeChangePercent, jsDiv, jsMul100, jsAbs, jsGtConst, this,
        not_lt.mpr this.le]
    · subst h
      simp [sizeChangePercent, jsDiv, jsMul100, jsAbs, jsGtConst]
    · have : (0 : ℚ) < ((d : ℤ) : ℚ) := by exact_mod_cast h
      simp [sizeChangePercent, jsDiv, jsMul100, jsAbs, jsGtConst, this]

/-!
## Confirmation State Machine: theorems
-/

lemma runUptime_append (required : ℕ) (xs ys : List SiteCheckStatus) :
    ∀ s : Option SiteUptimeState,
      runUptime required s (xs ++ ys) =
        ((runUptime required (runUptime required s xs).1 ys).1,
         (runUptime required s xs).2 ++ (runUptime required (runUptime required s xs).1 ys).2) := by
  induction xs with
  | nil => intro s; simp [runUptime]
  | cons p xs ih => intro s; simp [runUptime, ih, List.append_assoc]

lemma runUptime_replicate_error (required : ℕ) (j : ℕ) :
    ∀ c : ℕ, c + j < required →
      runUptime required (some ⟨UptimeState.UP, c, 0⟩)
          (List.replicate j SiteCheckStatus.ERROR) =
        (some ⟨UptimeState.UP, c + j, 0⟩, []) := by
  induction j with
  | zero => intro c _; simp [runUptime]
  | succ j ih =>
    intro c h
    rw [List.replicate_succ]
    have hstep : updateUptimeState required (some ⟨UptimeState.UP, c, 0⟩)
        SiteCheckStatus.ERROR = (⟨UptimeState.UP, c + 1, 0⟩, none) := by
      have hlt : ¬ required ≤ c + 1 := by omega
      simp [updateUptimeState, determineState, hlt]
    have hrest := ih (c + 1) (by omega)
    have harith : c + 1 + j = c + (j + 1) := by omega
    simp [runUptime, hstep, hrest, harith]

/-- C1: with `confirmationThreshold = required ≥ 1`, a target in state `UP`
that has accumulated `c` consecutive candidate-DOWN probes since its last
confirmed transition (or since initialization, which starts the count at 1
on a first candidate-DOWN probe — third conjunct) stays `UP` and emits
nothing across any further run that keeps the total below `required`
(first conjunct), and flips to `DOWN` with exactly one
`TransitionEvent(UP→DOWN)`, emitted by the final probe, on the probe that
brings the total of consecutive candidate-DOWN probes to `required`
(second conjunct). -/
theorem uptime_confirmation_monotonicity (required c j : ℕ)
    (_hreq : 1 ≤ required) (h : c + j < required) :
    runUptime required (some ⟨UptimeState.UP, c, 0⟩)
        (List.replicate j SiteCheckStatus.ERROR) =
      (some ⟨UptimeState.UP, c + j, 0⟩, []) ∧
    (c + j + 1 = required →
      runUptime required (some ⟨UptimeState.UP, c, 0⟩)
          (List.replicate (j + 1) SiteCheckStatus.ERROR) =
        (some ⟨UptimeState.DOWN, 0, 0⟩,
         [⟨UptimeState.UP, UptimeState.DOWN, SiteCheckStatus.ERROR⟩])) ∧
    updateUptimeState required none SiteCheckStatus.ERROR =
      (⟨UptimeState.UP, 1, 0⟩, none) := by
  refine ⟨runUptime_replicate_error required j c h, ?_, by simp [updateUptimeState, determineState]⟩
  intro hN
  rw [List.replicate_succ']
  rw [runUptime_append, runUptime_replicate_error required j c h]
  have hstep : updateUptimeState required (some ⟨UptimeState.UP, c + j, 0⟩)
      SiteCheckStatus.ERROR =
      (⟨UptimeState.DOWN, 0, 0⟩,
       some ⟨UptimeState.UP, UptimeState.DOWN, SiteCheckStatus.ERROR⟩) := by
    have hge : required ≤ c + j + 1 := by omega
    simp [updateUptimeState, determineState, hge]
  simp [runUptime, hstep]

/-- Witness for C1 at `required = 2`, `c = 0`, `j = 1`: one candidate-DOWN
probe leaves the target `UP` with a failure count of 1 and no event; the
second consecutive candidate-DOWN probe confirms the transition. -/
theorem uptime_confirmation_monotonicity_witness :
    runUptime 2 (some ⟨UptimeState.UP, 0, 0⟩)
        (List.replicate 1 SiteCheckStatus.ERROR) =
      (some ⟨UptimeState.UP, 0 + 1, 0⟩, []) ∧
    (0 + 1 + 1 = 2 →
      runUptime 2 (some ⟨UptimeState.UP, 0, 0⟩)
          (List.replicate (1 + 1) SiteCheckStatus.ERROR) =
        (some ⟨UptimeState.DOWN, 0, 0⟩,
         [⟨UptimeState.UP, UptimeState.DOWN, SiteCheckStatus.ERROR⟩])) ∧
    updateUptimeState 2 none SiteCheckStatus.ERROR =
      (⟨UptimeState.UP, 1, 0⟩, none) :=
  uptime_confirmation_monotonicity 2 0 1 (by decide) (by decide)

/-- C2: the very first probe for a target creates the state row with
`state = UP` whatever the probe's outcome, sets `consecutiveFailures = 1`
on a candidate-DOWN first probe and `consecutiveSuccesses = 1` on a
candidate-UP one, and emits no `TransitionEvent`; in particular a target
whose first probe is `ERROR` is never `DOWN` after that single probe, for
any threshold. -/
theorem uptime_first_probe_initialization (required : ℕ) (status : SiteCheckStatus) :
    runUptime required none [status] =
      (some ⟨UptimeState.UP,
             if determineState status = UptimeState.DOWN then 1 else 0,
             if determineState status = UptimeState.UP then 1 else 0⟩,
       []) ∧
    (∀ st, (runUptime required none [SiteCheckStatus.ERROR]).1 = some st →
      st.state ≠ UptimeState.DOWN) := by
  refine ⟨by simp [runUptime, updateUptimeState], ?_⟩
  intro st hst
  simp [runUptime, updateUptimeState, determineState] at hst
  rw [← hst]
  simp

/-- C3: after every invocation of `updateUptimeState` — from any prior
row, including none — at most one of the two counters is nonzero, and both
are zero exactly when the invocation emitted a `TransitionEvent`; the
running form of the invariant holds after any sequence of probes processed
from scratch. -/
theorem uptime_counter_exclusivity (required : ℕ) (prior : Option SiteUptimeState)
    (status : SiteCheckStatus) (probes : List SiteCheckStatus) :
    ((updateUptimeState required prior status).1.consecutiveFailures = 0 ∨
     (updateUptimeState required prior status).1.consecutiveSuccesses = 0) ∧
    (((updateUptimeState required prior status).1.consecutiveFailures = 0 ∧
      (updateUptimeState required prior status).1.consecutiveSuccesses = 0) ↔
     (updateUptimeState required prior status).2 ≠ none) ∧
    (∀ st, (runUptime required none probes).1 = some st →
      st.consecutiveFailures = 0 ∨ st.consecutiveSuccesses = 0) := by
  have step : ∀ (s : Option SiteUptimeState) (p : SiteCheckStatus),
      ((updateUptimeState required s p).1.consecutiveFailures = 0 ∨
       (updateUptimeState required s p).1.consecutiveSuccesses = 0) ∧
      (((updateUptimeState required s p).1.consecutiveFailures = 0 ∧
        (updateUptimeState required s p).1.consecutiveSuccesses = 0) ↔
       (updateUptimeState required s p).2 ≠ none) := by
    intro s p
    match s with
    | none =>
      cases hd : determineState p <;> simp [updateUptimeState, hd]
    | some cur =>
      cases hd : determineState p with
      | DOWN =>
        by_cases ht : cur.state = UptimeState.UP ∧ required ≤ cur.consecutiveFailures + 1
        · simp [updateUptimeState, hd, ht]
        · simp [updateUptimeState, hd, ht]
      | UP =>
        by_cases ht : cur.state = UptimeState.DOWN ∧ required ≤ cur.consecutiveSuccesses + 1
        · simp [updateUptimeState, hd, ht]
        · simp [updateUptimeState, hd, ht]
  refine ⟨(step prior status).1, (step prior status).2, ?_⟩
  have run : ∀ (ps : List SiteCheckStatus) (s : Option SiteUptimeState),
      (∀ st, s = some st →
        st.consecutiveFailures = 0 ∨ st.consecutiveSuccesses = 0) →
      ∀ st, (runUptime required s ps).1 = some st →
        st.consecutiveFailures = 0 ∨ st.consecutiveSuccesses = 0 := by
    intro ps
    induction ps with
    | nil => intro s hs st hst; exact hs st hst
    | cons p ps ih =>
      intro s hs st hst
      simp only [runUptime] at hst
      refine ih (some (updateUptimeState required s p).1) ?_ st hst
      intro st' hst'
      have := (step s p).1
      rw [← Option.some.injEq] at hst'
      cases hst'
      exact this
  exact run probes none (by intro st hst; cases hst)

/-!
## Evaluation orchestration: theorem
-/

/-- C4: the job processor completes successfully for every probe status and
every outcome of the snapshot block — a failure anywhere in the HTML
re-fetch, fingerprint extraction, diff computation, or snapshot persistence
is caught and swallowed — the `SiteCheck` record and the state-machine
update are always in place, and the snapshot block is attempted exactly for
`SUCCESS` probes. -/
theorem snapshot_failure_isolation (status : SiteCheckStatus)
    (fetchHtml : Except String HtmlResponse)
    (createSnap : HtmlResponse → Except String Unit) :
    ∃ eff : JobEffects,
      processCheckOutcome status fetchHtml createSnap = Except.ok eff ∧
      eff.checkCreated = true ∧
      eff.uptimeUpdated = true ∧
      (eff.snapshotAttempted = true ↔ status = SiteCheckStatus.SUCCESS) := by
  by_cases hs : status = SiteCheckStatus.SUCCESS
  · subst hs
    cases hsnap : snapshotBlock fetchHtml createSnap with
    | ok created =>
      refine ⟨{ checkCreated := true, uptimeUpdated := true,
                snapshotAttempted := true, snapshotCreated := created },
              ?_, rfl, rfl, by simp⟩
      simp [processCheckOutcome, hsnap]
    | error e =>
      refine ⟨{ checkCreated := true, uptimeUpdated := true,
                snapshotAttempted := true, snapshotCreated := false },
              ?_, rfl, rfl, by simp⟩
      simp [processCheckOutcome, hsnap]
  · refine ⟨{ checkCreated := true, uptimeUpdated := true,
              snapshotAttempted := false, snapshotCreated := false },
            ?_, rfl, rfl, by simp [hs]⟩
    simp [processCheckOutcome, hs]

end DryftLink
